import Mathlib

/-!
Verification of `vinetrimmer/utils/AtomicSQL.py`.

Shallow embedding of the `AtomicSQL` class: a session registry mapping
randomly generated session ids to database connection handles, an
exception-retrying executor `safe_execute`, and a `commit` wrapper.

Modelling choices:
* Python exceptions become the inductive `PyExc`; `sqlite3.OperationalError`
  is the transient-busy class, `ValueError` carries its message string, and
  every other exception class is `otherExc` tagged by an arbitrary code.
* A caller-supplied `action(db=..., cursor=...)` is modelled by its observable
  behaviour: a function from the looked-up connection and the 1-based index of
  the invocation to `Except PyExc α` (the k-th call either returns a value or
  raises).  The cursor argument itself carries no data the claims depend on;
  cursor lifetime is recorded in the event trace instead.
* Side effects (lock acquire/release, cursor creation/closing, action
  invocation, `time.sleep`) are recorded as an explicit list of events `Ev`,
  in the order the Python statements perform them (in particular the
  `finally: cursor.close()` runs after the `except` handler's sleep).
* The `while True` retry loop of `safe_execute` is embedded with a fuel
  parameter; `failures` reaches at most 10 before the loop raises, so the
  initial fuel 11 is never exhausted.
* `os.urandom(16)` is modelled as an arbitrary stream `gen : Nat → Nat` of
  candidate tokens, and the regeneration loop of `load` as `findFresh` with a
  fuel bound (fuel exhaustion models a call that never returns; `os.urandom`
  never yields a falsy value, so the `not session_id` disjunct of the Python
  loop condition only makes the first iteration run).
* The `self.db` dict is an association list with dict insert/lookup
  semantics; `self.session_lock` holds no claim-relevant data beyond the lock
  events already in the trace, so it is not duplicated in the state.
-/

namespace AtomicSQL

/-- Python exception values relevant to `AtomicSQL.py`:
`sqlite3.OperationalError` (the transient-busy error), `ValueError` with its
message, and any other exception class (tagged by an opaque code). -/
inductive PyExc where
  | operationalError : PyExc
  | valueError : String → PyExc
  | otherExc : Nat → PyExc
deriving DecidableEq, Repr

/-- The Python exception *class* of a `PyExc` value, used to express
"catching by exception type alone". -/
inductive ExcClass where
  | operationalErrorClass : ExcClass
  | valueErrorClass : ExcClass
  | otherClass : ExcClass
deriving DecidableEq, Repr

/-- Class of an exception value. -/
def PyExc.classOf : PyExc → ExcClass
  | .operationalError => .operationalErrorClass
  | .valueError _ => .valueErrorClass
  | .otherExc _ => .otherClass

/-- Observable side effects of `safe_execute`, in program order.
Cursor events carry the 1-based attempt index that created the cursor. -/
inductive Ev where
  | acqMaster : Ev
  | acqSession : Ev
  | mkCursor : Nat → Ev
  | invokeAction : Nat → Ev
  | sleepFor : Nat → Ev
  | closeCursor : Nat → Ev
  | relSession : Ev
  | relMaster : Ev
deriving DecidableEq, Repr

/-- A connection handle, seen through the only operation the claims need:
its `commit()` method, modelled by the result of the k-th commit call. -/
structure Conn where
  commitBehavior : Nat → Except PyExc Nat

/-- Dict membership test, `session_id in self.db`. -/
def dbHas (sid : Nat) : List (Nat × Conn) → Bool
  | [] => false
  | (k, _) :: rest => k == sid || dbHas sid rest

/-- Dict lookup, `self.db[session_id]`. -/
def lookupConn (sid : Nat) : List (Nat × Conn) → Option Conn
  | [] => none
  | (k, c) :: rest => if k = sid then some c else lookupConn sid rest

/-- Dict assignment, `self.db[session_id] = connection`. -/
def dbInsert (sid : Nat) (conn : Conn) : List (Nat × Conn) → List (Nat × Conn)
  | [] => [(sid, conn)]
  | (k, c) :: rest =>
    if k = sid then (sid, conn) :: rest else (k, c) :: dbInsert sid conn rest

/-- The registry state: `self.db` of the `AtomicSQL` instance. -/
structure Registry where
  db : List (Nat × Conn)

/-- Message of the `ValueError` raised for an unknown session id
(`f"Session ID \x7bsession_id!r\x7d is invalid."`). -/
def invalidSessionMsg (sid : Nat) : String :=
  "Session ID " ++ toString sid ++ " is invalid."

/-- Message of the `ValueError` raised after ten transient failures. -/
def retryExhaustedMsg : String :=
  "AtomicSQL.safe_execute failed too many times. Aborting."

/-- The `while not session_id or session_id in self.db` regeneration loop of
`load`: scan the random stream `gen` from index `i` for a candidate that is
not already a key of `db`. -/
def findFresh (db : List (Nat × Conn)) (gen : Nat → Nat) : Nat → Nat → Option Nat
  | _, 0 => none
  | i, fuel + 1 =>
    if dbHas (gen i) db then findFresh db gen (i + 1) fuel else some (gen i)

/-- `AtomicSQL.load`: store the connection under a fresh random session id
and return the id.  `gen` is the `os.urandom` stream, `fuel` bounds the
collision-regeneration loop (`none` models a call that never terminates). -/
def load (reg : Registry) (conn : Conn) (gen : Nat → Nat) (fuel : Nat) :
    Option (Nat × Registry) :=
  match findFresh reg.db gen 0 fuel with
  | none => none
  | some sid => some (sid, ⟨dbInsert sid conn reg.db⟩)

/-- The `while True` body of `safe_execute`, carrying the `failures` counter.
Each iteration creates a cursor, invokes the action, and closes the cursor
(`finally`); a `sqlite3.OperationalError` sleeps `3 * failures` before the
`finally` runs and raises `ValueError` once `failures == 10`; any other
exception propagates.  `fuel` bounds the recursion and is never exhausted
from the initial call (`failures` starts at 0 and the loop raises at 10). -/
def loopExec {α : Type} (action : Nat → Except PyExc α) :
    Nat → Nat → Except PyExc α × List Ev
  | 0, _ => (Except.error (PyExc.valueError "fuel exhausted"), [])
  | fuel + 1, failures =>
    let attempt := failures + 1
    match action attempt with
    | Except.ok v =>
      (Except.ok v, [Ev.mkCursor attempt, Ev.invokeAction attempt, Ev.closeCursor attempt])
    | Except.error PyExc.operationalError =>
      let fails := failures + 1
      let blk := [Ev.mkCursor attempt, Ev.invokeAction attempt,
        Ev.sleepFor (3 * fails), Ev.closeCursor attempt]
      if fails = 10 then
        (Except.error (PyExc.valueError retryExhaustedMsg), blk)
      else
        let rest := loopExec action fuel fails
        (rest.1, blk ++ rest.2)
    | Except.error e =>
      (Except.error e, [Ev.mkCursor attempt, Ev.invokeAction attempt, Ev.closeCursor attempt])

/-- `AtomicSQL.safe_execute`: validate the session id (before any lock is
taken), then run the retry loop between acquiring master and session locks
and releasing them in reverse order (`finally`).  Returns the result (value
or exception), the event trace, and the registry state after the call. -/
def safe_execute {α : Type} (reg : Registry) (sid : Nat)
    (action : Conn → Nat → Except PyExc α) :
    Except PyExc α × List Ev × Registry :=
  match lookupConn sid reg.db with
  | none => (Except.error (PyExc.valueError (invalidSessionMsg sid)), [], reg)
  | some conn =>
    let inner := loopExec (action conn) 11 0
    (inner.1,
      Ev.acqMaster :: Ev.acqSession :: (inner.2 ++ [Ev.relSession, Ev.relMaster]),
      reg)

/-- `AtomicSQL.commit`: `safe_execute` with the action
`lambda db, cursor: db.commit()`, then `return True` (the commit method's own
return value is discarded; an exception from `safe_execute` propagates). -/
def commit (reg : Registry) (sid : Nat) : Except PyExc Bool × List Ev × Registry :=
  let r := safe_execute reg sid (fun db k => db.commitBehavior k)
  (r.1.map (fun _ => true), r.2.1, r.2.2)

/-- A sequence of `load` calls on one registry; returns the final registry
and the session ids issued, in order. -/
def loadSeq : Registry → List (Conn × (Nat → Nat) × Nat) → Registry × List Nat
  | reg, [] => (reg, [])
  | reg, (conn, gen, fuel) :: rest =>
    match load reg conn gen fuel with
    | none => loadSeq reg rest
    | some (sid, reg') =>
      let r := loadSeq reg' rest
      (r.1, sid :: r.2)

/-- Number of action invocations recorded in a trace. -/
def invokeCount (evs : List Ev) : Nat :=
  (evs.filter fun e => match e with | Ev.invokeAction _ => true | _ => false).length

/-- The sleep durations recorded in a trace, in order. -/
def sleepTimes (evs : List Ev) : List Nat :=
  evs.filterMap fun e => match e with | Ev.sleepFor t => some t | _ => none

/-- The cursor events of a trace: `(true, a)` for creation on attempt `a`,
`(false, a)` for closing. -/
def cursorEvents (evs : List Ev) : List (Bool × Nat) :=
  evs.filterMap fun e => match e with
    | Ev.mkCursor a => some (true, a)
    | Ev.closeCursor a => some (false, a)
    | _ => none

/-- Attempt indices whose cursor was created, in order. -/
def mkAttempts (evs : List Ev) : List Nat :=
  evs.filterMap fun e => match e with | Ev.mkCursor a => some a | _ => none

/-- Attempt indices on which the action was invoked, in order. -/
def invokeAttempts (evs : List Ev) : List Nat :=
  evs.filterMap fun e => match e with | Ev.invokeAction a => some a | _ => none

/-- Strict alternation of cursor events: each created cursor is closed
before any other cursor is created, and every creation has its matching
close.  This expresses "at most one execution context live at a time and
none leaks". -/
def isAltSeq : List (Bool × Nat) → Bool
  | [] => true
  | (true, a) :: (false, b) :: rest => a == b && isAltSeq rest
  | _ => false

/-- Lock events of the trace. -/
def isLockEv : Ev → Bool
  | Ev.acqMaster => true
  | Ev.acqSession => true
  | Ev.relSession => true
  | Ev.relMaster => true
  | _ => false

end AtomicSQL

open AtomicSQL

/-- A connection whose commit always raises the transient-busy error. -/
def busyConn : Conn := ⟨fun _ => Except.error PyExc.operationalError⟩

/-- A connection whose commit always succeeds, returning 0. -/
def okConn : Conn := ⟨fun _ => Except.ok 0⟩

/-- A registry holding one session: id 1 bound to `okConn`. -/
def regOne : Registry := ⟨[(1, okConn)]⟩

/-- Unfolding of one loop iteration when the action succeeds. -/
theorem loopExec_succ_ok {α : Type} (action : Nat → Except PyExc α) (n failures : Nat)
    (v : α) (ha : action (failures + 1) = Except.ok v) :
    loopExec action (n + 1) failures =
      (Except.ok v, [Ev.mkCursor (failures + 1), Ev.invokeAction (failures + 1),
        Ev.closeCursor (failures + 1)]) := by
  rw [loopExec]; simp [ha]

/-- Unfolding of one loop iteration on a transient failure below the cap. -/
theorem loopExec_succ_busy {α : Type} (action : Nat → Except PyExc α) (n failures : Nat)
    (ha : action (failures + 1) = Except.error PyExc.operationalError)
    (h10 : ¬ failures + 1 = 10) :
    loopExec action (n + 1) failures =
      ((loopExec action n (failures + 1)).1,
        [Ev.mkCursor (failures + 1), Ev.invokeAction (failures + 1),
         Ev.sleepFor (3 * (failures + 1)), Ev.closeCursor (failures + 1)] ++
          (loopExec action n (failures + 1)).2) := by
  rw [loopExec]; simp [ha, h10]

/-- Unfolding of the loop iteration that hits the tenth transient failure. -/
theorem loopExec_succ_last {α : Type} (action : Nat → Except PyExc α) (n failures : Nat)
    (ha : action (failures + 1) = Except.error PyExc.operationalError)
    (h10 : failures + 1 = 10) :
    loopExec action (n + 1) failures =
      (Except.error (PyExc.valueError retryExhaustedMsg),
        [Ev.mkCursor (failures + 1), Ev.invokeAction (failures + 1),
         Ev.sleepFor (3 * (failures + 1)), Ev.closeCursor (failures + 1)]) := by
  rw [loopExec]
  simp only [ha]
  rw [if_pos h10]

/-- Unfolding of one loop iteration on a non-transient exception. -/
theorem loopExec_succ_other {α : Type} (action : Nat → Except PyExc α) (n failures : Nat)
    (e : PyExc) (hne : e ≠ PyExc.operationalError)
    (ha : action (failures + 1) = Except.error e) :
    loopExec action (n + 1) failures =
      (Except.error e, [Ev.mkCursor (failures + 1), Ev.invokeAction (failures + 1),
        Ev.closeCursor (failures + 1)]) := by
  rw [loopExec]
  cases e with
  | operationalError => exact absurd rfl hne
  | valueError m => simp [ha]
  | otherExc c => simp [ha]

/-- A session id produced by the regeneration loop is not yet a key. -/
theorem findFresh_fresh (db : List (Nat × Conn)) (gen : Nat → Nat) :
    ∀ fuel i sid, findFresh db gen i fuel = some sid → dbHas sid db = false := by
  intro fuel
  induction fuel with
  | zero => intro i sid h; simp [findFresh] at h
  | succ n ih =>
    intro i sid h
    by_cases hc : dbHas (gen i) db
    · rw [findFresh, if_pos hc] at h
      exact ih (i + 1) sid h
    · rw [findFresh, if_neg hc] at h
      cases h
      exact Bool.eq_false_iff.mpr hc

/-- Dict insertion preserves membership of existing keys. -/
theorem dbHas_insert_mono (t k : Nat) (c : Conn) (db : List (Nat × Conn))
    (h : dbHas t db = true) : dbHas t (dbInsert k c db) = true := by
  induction db with
  | nil => simp [dbHas] at h
  | cons hd rest ih =>
    obtain ⟨k', c'⟩ := hd
    rw [dbHas, Bool.or_eq_true] at h
    by_cases hk : k' = k
    · subst hk
      rw [dbInsert, if_pos rfl, dbHas, Bool.or_eq_true]
      rcases h with h | h
      · left; exact h
      · right; exact h
    · rw [dbInsert, if_neg hk, dbHas, Bool.or_eq_true]
      rcases h with h | h
      · left; exact h
      · right; exact ih h

/-- The inserted key is a member after dict insertion. -/
theorem dbHas_insert_self (k : Nat) (c : Conn) (db : List (Nat × Conn)) :
    dbHas k (dbInsert k c db) = true := by
  induction db with
  | nil => simp [dbInsert, dbHas]
  | cons hd rest ih =>
    obtain ⟨k', c'⟩ := hd
    by_cases hk : k' = k
    · subst hk; simp [dbInsert, dbHas]
    · rw [dbInsert, if_neg hk, dbHas, Bool.or_eq_true]
      right; exact ih

/-- A successful `load` returns a fresh id and inserts exactly that binding. -/
theorem load_spec (reg : Registry) (conn : Conn) (gen : Nat → Nat) (fuel : Nat)
    (sid : Nat) (reg' : Registry) (h : load reg conn gen fuel = some (sid, reg')) :
    dbHas sid reg.db = false ∧ reg'.db = dbInsert sid conn reg.db := by
  unfold load at h
  cases hf : findFresh reg.db gen 0 fuel with
  | none => rw [hf] at h; cases h
  | some s =>
    rw [hf, Option.some.injEq, Prod.mk.injEq] at h
    obtain ⟨h1, h2⟩ := h
    exact ⟨h1 ▸ findFresh_fresh reg.db gen fuel 0 s hf, by rw [← h2, ← h1]⟩

/-- Invariant of a sequence of `load` calls: the issued ids are distinct,
none was a key beforehand, and keys are never removed. -/
theorem loadSeq_spec :
    ∀ (args : List (Conn × (Nat → Nat) × Nat)) (reg : Registry),
      (loadSeq reg args).2.Nodup ∧
      (∀ t ∈ (loadSeq reg args).2, dbHas t reg.db = false) ∧
      (∀ t, dbHas t reg.db = true → dbHas t (loadSeq reg args).1.db = true) := by
  intro args
  induction args with
  | nil => intro reg; simp [loadSeq]
  | cons a rest ih =>
    intro reg
    obtain ⟨conn, gen, fuel⟩ := a
    cases hl : load reg conn gen fuel with
    | none =>
      simpa [loadSeq, hl] using ih reg
    | some p =>
      obtain ⟨sid, reg'⟩ := p
      obtain ⟨hfresh, hdb⟩ := load_spec reg conn gen fuel sid reg' hl
      obtain ⟨ihnd, ihfresh, ihmono⟩ := ih reg'
      have hmono : ∀ t, dbHas t reg.db = true → dbHas t reg'.db = true := by
        intro t ht
        rw [hdb]
        exact dbHas_insert_mono t sid conn reg.db ht
      have hsid' : dbHas sid reg'.db = true := by
        rw [hdb]; exact dbHas_insert_self sid conn reg.db
      refine ⟨?_, ?_, ?_⟩
      · rw [loadSeq, hl]
        refine List.nodup_cons.mpr ⟨?_, ihnd⟩
        intro hmem
        have := ihfresh sid hmem
        rw [this] at hsid'
        cases hsid'
      · intro t ht
        rw [loadSeq, hl] at ht
        rcases List.mem_cons.mp ht with h | h
        · subst h; exact hfresh
        · have := ihfresh t h
          by_contra hc
          have hc' : dbHas t reg.db = true := by
            cases hx : dbHas t reg.db
            · exact absurd hx hc
            · rfl
          rw [hmono t hc'] at this
          cases this
      · intro t ht
        rw [loadSeq, hl]
        exact ihmono t (hmono t ht)

/-- Cursor discipline of the retry loop: cursor events strictly alternate
create/close with matching attempts, each attempt invokes the action exactly
when it creates a cursor, and attempt indices are fresh (strictly above the
entry failure count, without repetition). -/
theorem loopExec_cursor_spec {α : Type} (action : Nat → Except PyExc α) :
    ∀ fuel failures,
      isAltSeq (cursorEvents (loopExec action fuel failures).2) = true ∧
      mkAttempts (loopExec action fuel failures).2 =
        invokeAttempts (loopExec action fuel failures).2 ∧
      (∀ x ∈ mkAttempts (loopExec action fuel failures).2, failures < x) ∧
      (mkAttempts (loopExec action fuel failures).2).Nodup := by
  intro fuel
  induction fuel with
  | zero =>
    intro failures
    simp [loopExec, cursorEvents, mkAttempts, invokeAttempts, isAltSeq]
  | succ n ih =>
    intro failures
    cases ha : action (failures + 1) with
    | ok v =>
      rw [loopExec_succ_ok action n failures v ha]
      simp [cursorEvents, mkAttempts, invokeAttempts, isAltSeq]
    | error e =>
      cases e with
      | operationalError =>
        by_cases h10 : failures + 1 = 10
        · rw [loopExec_succ_last action n failures ha h10]
          simp [cursorEvents, mkAttempts, invokeAttempts, isAltSeq]
        · rw [loopExec_succ_busy action n failures ha h10]
          obtain ⟨ih1, ih2, ih3, ih4⟩ := ih (failures + 1)
          refine ⟨?_, ?_, ?_, ?_⟩
          · simpa [cursorEvents, isAltSeq] using ih1
          · simpa [mkAttempts, invokeAttempts] using ih2
          · intro x hx
            simp only [mkAttempts, List.filterMap_append, List.filterMap_cons,
              List.filterMap_nil, List.mem_append] at hx
            rcases hx with h | h
            · simp at h
              subst h
              exact Nat.lt_succ_self failures
            · exact Nat.lt_of_succ_lt (ih3 x (by simpa [mkAttempts] using h))
          · simp only [mkAttempts, List.filterMap_append, List.filterMap_cons,
              List.filterMap_nil]
            simp only [List.nil_append, List.singleton_append]
            refine List.nodup_cons.mpr ⟨?_, by simpa [mkAttempts] using ih4⟩
            intro hmem
            have hlt := ih3 (failures + 1) (by simpa [mkAttempts] using hmem)
            exact Nat.lt_irrefl _ hlt
      | valueError m =>
        rw [loopExec_succ_other action n failures (PyExc.valueError m) (by simp) ha]
        simp [cursorEvents, mkAttempts, invokeAttempts, isAltSeq]
      | otherExc c =>
        rw [loopExec_succ_other action n failures (PyExc.otherExc c) (by simp) ha]
        simp [cursorEvents, mkAttempts, invokeAttempts, isAltSeq]

/-- The retry loop performs no lock operation: all lock events of
`safe_execute` come from its outer bracket. -/
theorem loopExec_no_lock {α : Type} (action : Nat → Except PyExc α) :
    ∀ fuel failures,
      ((loopExec action fuel failures).2.all fun e => ! isLockEv e) = true := by
  intro fuel
  induction fuel with
  | zero => intro failures; simp [loopExec]
  | succ n ih =>
    intro failures
    cases ha : action (failures + 1) with
    | ok v =>
      rw [loopExec_succ_ok action n failures v ha]
      simp [isLockEv]
    | error e =>
      cases e with
      | operationalError =>
        by_cases h10 : failures + 1 = 10
        · rw [loopExec_succ_last action n failures ha h10]
          simp [isLockEv]
        · rw [loopExec_succ_busy action n failures ha h10]
          simp only [List.all_append, List.all_cons, List.all_nil, Bool.and_eq_true]
          refine ⟨by simp [isLockEv], ?_⟩
          exact ih (failures + 1)
      | valueError m =>
        rw [loopExec_succ_other action n failures (PyExc.valueError m) (by simp) ha]
        simp [isLockEv]
      | otherExc c =>
        rw [loopExec_succ_other action n failures (PyExc.otherExc c) (by simp) ha]
        simp [isLockEv]

/-- Dict membership agrees with dict lookup. -/
theorem dbHas_eq_isSome (t : Nat) (db : List (Nat × Conn)) :
    dbHas t db = (lookupConn t db).isSome := by
  induction db with
  | nil => simp [dbHas, lookupConn]
  | cons hd rest ih =>
    obtain ⟨k, c⟩ := hd
    by_cases hk : k = t
    · subst hk; simp [dbHas, lookupConn]
    · simp [dbHas, lookupConn, hk, ih]

/-- Dict insertion under a different key leaves a lookup unchanged. -/
theorem lookupConn_insert_ne (t k : Nat) (c : Conn) (db : List (Nat × Conn))
    (hne : k ≠ t) : lookupConn t (dbInsert k c db) = lookupConn t db := by
  induction db with
  | nil => simp [dbInsert, lookupConn, hne]
  | cons hd rest ih =>
    obtain ⟨k', c'⟩ := hd
    by_cases hk : k' = k
    · subst hk
      rw [dbInsert, if_pos rfl]
      rw [lookupConn, if_neg hne, lookupConn, if_neg hne]
    · rw [dbInsert, if_neg hk]
      by_cases ht : k' = t
      · subst ht; rw [lookupConn, if_pos rfl, lookupConn, if_pos rfl]
      · rw [lookupConn, if_neg ht, lookupConn, if_neg ht, ih]

/-- The invalid-session message starts with the letter S. -/
theorem invalidSessionMsg_head (sid : Nat) :
    (invalidSessionMsg sid).data.head? = some 'S' := by
  unfold invalidSessionMsg
  cases h : (toString sid ++ " is invalid." : String) with
  | mk l => rfl

/-- The two `ValueError` messages of `safe_execute` differ, for every
session id. -/
theorem invalidSessionMsg_ne (sid : Nat) :
    invalidSessionMsg sid ≠ retryExhaustedMsg := by
  intro h
  have h1 := invalidSessionMsg_head sid
  rw [h] at h1
  have h2 : (retryExhaustedMsg).data.head? = some 'A' := by rfl
  rw [h1] at h2
  simp at h2

/-- C1: for every action that raises the transient-busy error on every
invocation, `safe_execute` on a valid session id invokes the action exactly
10 times, sleeps 3, 6, ..., 30 time units, then fails with the
retry-exhausted `ValueError`; no 11th attempt is made. -/
theorem safe_execute_always_busy_exhausts_retries {α : Type}
    (reg : Registry) (sid : Nat) (conn : Conn)
    (action : Conn → Nat → Except PyExc α)
    (hfind : lookupConn sid reg.db = some conn)
    (hbusy : ∀ k, action conn k = Except.error PyExc.operationalError) :
    (safe_execute reg sid action).1 =
      Except.error (PyExc.valueError retryExhaustedMsg) ∧
    invokeCount (safe_execute reg sid action).2.1 = 10 ∧
    sleepTimes (safe_execute reg sid action).2.1 =
      [3, 6, 9, 12, 15, 18, 21, 24, 27, 30] := by
  have ha : action conn = fun _ => Except.error PyExc.operationalError := funext hbusy
  simp [safe_execute, hfind, ha, loopExec, invokeCount, sleepTimes]

/-- Witness for C1: a concrete always-busy action on session 1 of `regOne`. -/
theorem safe_execute_always_busy_exhausts_retries_witness :
    (safe_execute regOne 1
        (fun _ _ => (Except.error PyExc.operationalError : Except PyExc Nat))).1 =
      Except.error (PyExc.valueError retryExhaustedMsg) ∧
    invokeCount (safe_execute regOne 1
        (fun _ _ => (Except.error PyExc.operationalError : Except PyExc Nat))).2.1 = 10 ∧
    sleepTimes (safe_execute regOne 1
        (fun _ _ => (Except.error PyExc.operationalError : Except PyExc Nat))).2.1 =
      [3, 6, 9, 12, 15, 18, 21, 24, 27, 30] :=
  safe_execute_always_busy_exhausts_retries regOne 1 okConn
    (fun _ _ => Except.error PyExc.operationalError) rfl (fun _ => rfl)

/-- C2: for every action that raises transient-busy on its first two
invocations and returns `v` on the third, `safe_execute` on a valid session
id returns `v` after exactly 3 invocations, with the two backoff sleeps 3
and 6. -/
theorem safe_execute_busy_twice_then_succeeds {α : Type}
    (reg : Registry) (sid : Nat) (conn : Conn) (v : α)
    (action : Conn → Nat → Except PyExc α)
    (hfind : lookupConn sid reg.db = some conn)
    (h1 : action conn 1 = Except.error PyExc.operationalError)
    (h2 : action conn 2 = Except.error PyExc.operationalError)
    (h3 : action conn 3 = Except.ok v) :
    (safe_execute reg sid action).1 = Except.ok v ∧
    invokeCount (safe_execute reg sid action).2.1 = 3 ∧
    sleepTimes (safe_execute reg sid action).2.1 = [3, 6] := by
  simp [safe_execute, hfind, loopExec, h1, h2, h3, invokeCount, sleepTimes]

/-- Witness for C2: an action failing twice then returning 7, on `regOne`. -/
theorem safe_execute_busy_twice_then_succeeds_witness :
    (safe_execute regOne 1
        (fun _ k => if k ≤ 2 then Except.error PyExc.operationalError
          else (Except.ok 7 : Except PyExc Nat))).1 = Except.ok 7 ∧
    invokeCount (safe_execute regOne 1
        (fun _ k => if k ≤ 2 then Except.error PyExc.operationalError
          else (Except.ok 7 : Except PyExc Nat))).2.1 = 3 ∧
    sleepTimes (safe_execute regOne 1
        (fun _ k => if k ≤ 2 then Except.error PyExc.operationalError
          else (Except.ok 7 : Except PyExc Nat))).2.1 = [3, 6] :=
  safe_execute_busy_twice_then_succeeds regOne 1 okConn 7
    (fun _ k => if k ≤ 2 then Except.error PyExc.operationalError else Except.ok 7)
    rfl rfl rfl rfl

/-- C3: for every action whose first invocation raises an error outside the
transient-busy class, `safe_execute` on a valid session id propagates that
same error with a single invocation and no sleep; the trace shows the cursor
closed before the locks are released, i.e. before the error crosses the
component boundary. -/
theorem safe_execute_nontransient_propagates {α : Type}
    (reg : Registry) (sid : Nat) (conn : Conn) (e : PyExc)
    (action : Conn → Nat → Except PyExc α)
    (hfind : lookupConn sid reg.db = some conn)
    (hne : e ≠ PyExc.operationalError)
    (h1 : action conn 1 = Except.error e) :
    (safe_execute reg sid action).1 = Except.error e ∧
    (safe_execute reg sid action).2.1 =
      [Ev.acqMaster, Ev.acqSession, Ev.mkCursor 1, Ev.invokeAction 1,
       Ev.closeCursor 1, Ev.relSession, Ev.relMaster] ∧
    invokeCount (safe_execute reg sid action).2.1 = 1 ∧
    sleepTimes (safe_execute reg sid action).2.1 = [] := by
  cases e with
  | operationalError => exact absurd rfl hne
  | valueError m => simp [safe_execute, hfind, loopExec, h1, invokeCount, sleepTimes]
  | otherExc n => simp [safe_execute, hfind, loopExec, h1, invokeCount, sleepTimes]

/-- Witness for C3: a non-transient error `otherExc 0` on session 1. -/
theorem safe_execute_nontransient_propagates_witness :
    (safe_execute regOne 1
        (fun _ _ => (Except.error (PyExc.otherExc 0) : Except PyExc Nat))).1 =
      Except.error (PyExc.otherExc 0) ∧
    (safe_execute regOne 1
        (fun _ _ => (Except.error (PyExc.otherExc 0) : Except PyExc Nat))).2.1 =
      [Ev.acqMaster, Ev.acqSession, Ev.mkCursor 1, Ev.invokeAction 1,
       Ev.closeCursor 1, Ev.relSession, Ev.relMaster] ∧
    invokeCount (safe_execute regOne 1
        (fun _ _ => (Except.error (PyExc.otherExc 0) : Except PyExc Nat))).2.1 = 1 ∧
    sleepTimes (safe_execute regOne 1
        (fun _ _ => (Except.error (PyExc.otherExc 0) : Except PyExc Nat))).2.1 = [] :=
  safe_execute_nontransient_propagates regOne 1 okConn (PyExc.otherExc 0)
    (fun _ _ => Except.error (PyExc.otherExc 0)) rfl (by decide) rfl

/-- C4: for every unknown session id, `safe_execute` fails immediately with
the invalid-session `ValueError`; the trace is empty (no lock, cursor, action
invocation, or sleep) and the registry state is unchanged. -/
theorem safe_execute_invalid_session {α : Type} (reg : Registry) (sid : Nat)
    (action : Conn → Nat → Except PyExc α)
    (hnone : lookupConn sid reg.db = none) :
    (safe_execute reg sid action).1 =
      Except.error (PyExc.valueError (invalidSessionMsg sid)) ∧
    (safe_execute reg sid action).2.1 = [] ∧
    invokeCount (safe_execute reg sid action).2.1 = 0 ∧
    (safe_execute reg sid action).2.2 = reg := by
  simp [safe_execute, hnone, invokeCount]

/-- Witness for C4: the unregistered session id 2 on `regOne`. -/
theorem safe_execute_invalid_session_witness :
    (safe_execute regOne 2 (fun _ _ => (Except.ok 0 : Except PyExc Nat))).1 =
      Except.error (PyExc.valueError (invalidSessionMsg 2)) ∧
    (safe_execute regOne 2 (fun _ _ => (Except.ok 0 : Except PyExc Nat))).2.1 = [] ∧
    invokeCount (safe_execute regOne 2
      (fun _ _ => (Except.ok 0 : Except PyExc Nat))).2.1 = 0 ∧
    (safe_execute regOne 2 (fun _ _ => (Except.ok 0 : Except PyExc Nat))).2.2 = regOne :=
  safe_execute_invalid_session regOne 2 (fun _ _ => Except.ok 0) rfl

/-- C5: over any sequence of `load` calls on one registry, the issued session
tokens are pairwise distinct, and each also differs from every key the
registry held beforehand. -/
theorem load_tokens_pairwise_distinct (reg : Registry)
    (args : List (Conn × (Nat → Nat) × Nat)) :
    (loadSeq reg args).2.Nodup ∧
    ∀ t ∈ (loadSeq reg args).2, dbHas t reg.db = false :=
  ⟨(loadSeq_spec args reg).1, (loadSeq_spec args reg).2.1⟩

/-- C6: within any `safe_execute` call, cursor events strictly alternate
creation and close with matching attempt indices (so every created execution
context is released, at most one is live at a time, and each is closed before
the next attempt's is created), one cursor is created per action invocation,
and attempt indices never repeat (a fresh cursor per attempt). -/
theorem safe_execute_cursor_discipline {α : Type} (reg : Registry) (sid : Nat)
    (action : Conn → Nat → Except PyExc α) :
    isAltSeq (cursorEvents (safe_execute reg sid action).2.1) = true ∧
    mkAttempts (safe_execute reg sid action).2.1 =
      invokeAttempts (safe_execute reg sid action).2.1 ∧
    (mkAttempts (safe_execute reg sid action).2.1).Nodup := by
  cases hl : lookupConn sid reg.db with
  | none => simp [safe_execute, hl, cursorEvents, mkAttempts, invokeAttempts, isAltSeq]
  | some conn =>
    obtain ⟨h1, h2, h3, h4⟩ := loopExec_cursor_spec (action conn) 11 0
    refine ⟨?_, ?_, ?_⟩
    · simpa [safe_execute, hl, cursorEvents] using h1
    · simpa [safe_execute, hl, mkAttempts, invokeAttempts] using h2
    · simpa [safe_execute, hl, mkAttempts] using h4

/-- C7: for every valid session id whose connection's commit succeeds,
`commit` invokes the connection's commit operation exactly once and returns
`true`, irrespective of the value the commit operation itself returned. -/
theorem commit_invokes_once_returns_true (reg : Registry) (sid : Nat)
    (conn : Conn) (v : Nat)
    (hfind : lookupConn sid reg.db = some conn)
    (hc : conn.commitBehavior 1 = Except.ok v) :
    (commit reg sid).1 = Except.ok true ∧
    invokeCount (commit reg sid).2.1 = 1 := by
  simp [commit, safe_execute, hfind, loopExec, hc, invokeCount, Except.map]

/-- Witness for C7: session 1 of `regOne`, whose commit returns 0. -/
theorem commit_invokes_once_returns_true_witness :
    (commit regOne 1).1 = Except.ok true ∧
    invokeCount (commit regOne 1).2.1 = 1 :=
  commit_invokes_once_returns_true regOne 1 okConn 0 rfl rfl

/-- C8: an issued token always resolves to the same connection handle: a
later successful `load` preserves every existing binding, and `safe_execute`
and `commit` leave the registry state unchanged on every path. -/
theorem token_binding_stable (reg : Registry) (t : Nat) (c : Conn) (conn : Conn)
    (gen : Nat → Nat) (fuel : Nat) (sid : Nat) (reg' : Registry)
    {α : Type} (sid2 : Nat) (action : Conn → Nat → Except PyExc α)
    (hfind : lookupConn t reg.db = some c)
    (hload : load reg conn gen fuel = some (sid, reg')) :
    lookupConn t reg'.db = some c ∧
    (safe_execute reg sid2 action).2.2 = reg ∧
    (commit reg sid2).2.2 = reg := by
  obtain ⟨hfresh, hdb⟩ := load_spec reg conn gen fuel sid reg' hload
  refine ⟨?_, ?_, ?_⟩
  · have hne : sid ≠ t := by
      intro h
      subst h
      rw [dbHas_eq_isSome, hfind] at hfresh
      simp at hfresh
    rw [hdb, lookupConn_insert_ne t sid conn reg.db hne, hfind]
  · cases hl : lookupConn sid2 reg.db <;> simp [safe_execute, hl]
  · cases hl : lookupConn sid2 reg.db <;> simp [commit, safe_execute, hl]

/-- Witness for C8: token 1 of `regOne` keeps its binding after a `load`
that issues token 2, and after `safe_execute`/`commit` on session 1. -/
theorem token_binding_stable_witness :
    lookupConn 1 (Registry.mk [(1, okConn), (2, busyConn)]).db = some okConn ∧
    (safe_execute regOne 1 (fun _ _ => (Except.ok 0 : Except PyExc Nat))).2.2 = regOne ∧
    (commit regOne 1).2.2 = regOne :=
  token_binding_stable regOne 1 okConn busyConn (fun _ => 2) 1 2
    (Registry.mk [(1, okConn), (2, busyConn)]) 1
    (fun _ _ => (Except.ok 0 : Except PyExc Nat)) rfl rfl

/-- C9: on every `safe_execute` call with a valid session id, the trace opens
by acquiring the master lock then the session lock and closes by releasing
the session lock then the master lock — on every exit path, since the action
is arbitrary — and no lock operation occurs in between, so the whole retry
loop (hence the action's critical section) runs while both locks are held. -/
theorem safe_execute_lock_bracket {α : Type} (reg : Registry) (sid : Nat)
    (conn : Conn) (action : Conn → Nat → Except PyExc α)
    (hfind : lookupConn sid reg.db = some conn) :
    (safe_execute reg sid action).2.1 =
      Ev.acqMaster :: Ev.acqSession ::
        ((loopExec (action conn) 11 0).2 ++ [Ev.relSession, Ev.relMaster]) ∧
    ((loopExec (action conn) 11 0).2.all fun e => ! isLockEv e) = true :=
  ⟨by simp [safe_execute, hfind], loopExec_no_lock (action conn) 11 0⟩

/-- Witness for C9: the lock bracket of a succeeding action on session 1. -/
theorem safe_execute_lock_bracket_witness :
    (safe_execute regOne 1 (fun _ _ => (Except.ok 0 : Except PyExc Nat))).2.1 =
      Ev.acqMaster :: Ev.acqSession ::
        ((loopExec ((fun (_ : Conn) (_ : Nat) => (Except.ok 0 : Except PyExc Nat)) okConn)
            11 0).2 ++ [Ev.relSession, Ev.relMaster]) ∧
    ((loopExec ((fun (_ : Conn) (_ : Nat) => (Except.ok 0 : Except PyExc Nat)) okConn)
        11 0).2.all fun e => ! isLockEv e) = true :=
  safe_execute_lock_bracket regOne 1 okConn (fun _ _ => Except.ok 0) rfl

/-- C10: the invalid-session failure and the retry-exhausted failure are both
raised as `ValueError` — the same exception class — and differ only in their
message text, so a caller catching by exception type alone cannot tell them
apart. -/
theorem invalid_and_exhausted_same_exception_class {α : Type}
    (regA : Registry) (sidA : Nat) (regB : Registry) (sidB : Nat) (conn : Conn)
    (action : Conn → Nat → Except PyExc α)
    (hbad : lookupConn sidA regA.db = none)
    (hgood : lookupConn sidB regB.db = some conn)
    (hbusy : ∀ k, action conn k = Except.error PyExc.operationalError) :
    (safe_execute regA sidA action).1 =
      Except.error (PyExc.valueError (invalidSessionMsg sidA)) ∧
    (safe_execute regB sidB action).1 =
      Except.error (PyExc.valueError retryExhaustedMsg) ∧
    (PyExc.valueError (invalidSessionMsg sidA)).classOf =
      (PyExc.valueError retryExhaustedMsg).classOf ∧
    invalidSessionMsg sidA ≠ retryExhaustedMsg := by
  have ha : action conn = fun _ => Except.error PyExc.operationalError := funext hbusy
  refine ⟨by simp [safe_execute, hbad], ?_, rfl, invalidSessionMsg_ne sidA⟩
  simp [safe_execute, hgood, ha, loopExec]

/-- Witness for C10: unknown session 2 versus always-busy session 1. -/
theorem invalid_and_exhausted_same_exception_class_witness :
    (safe_execute regOne 2
        (fun _ _ => (Except.error PyExc.operationalError : Except PyExc Nat))).1 =
      Except.error (PyExc.valueError (invalidSessionMsg 2)) ∧
    (safe_execute regOne 1
        (fun _ _ => (Except.error PyExc.operationalError : Except PyExc Nat))).1 =
      Except.error (PyExc.valueError retryExhaustedMsg) ∧
    (PyExc.valueError (invalidSessionMsg 2)).classOf =
      (PyExc.valueError retryExhaustedMsg).classOf ∧
    invalidSessionMsg 2 ≠ retryExhaustedMsg :=
  invalid_and_exhausted_same_exception_class regOne 2 regOne 1 okConn
    (fun _ _ => Except.error PyExc.operationalError) rfl rfl (fun _ => rfl)
